import Mathlib

/-!
Shallow embedding of `settings.py` (danilarious-screensaver configuration
editor).  The persisted JSON document is modelled as an association list of
string keys to JSON-shaped values; the Tk variables bound to controls are
modelled as raw values whose numeric coercion (`float(...)` / `int(...)`)
may fail with a `ValueError`, which the source maps to the
"Invalid numeric values entered" condition.  Filesystem and process effects
are modelled as explicit state and behaviour parameters.
-/

set_option autoImplicit false

namespace Danilarious

/-- JSON-shaped values occurring in the configuration document.  Floats are
modelled as exact rationals (JSON serialization of Python floats and ints is
lossless for the declared schema). -/
inductive Value where
  | vFloat : ℚ → Value
  | vInt : ℤ → Value
  | vStr : String → Value
  | vBool : Bool → Value
  | vList : List String → Value
deriving DecidableEq, Repr

/-- The persisted document / in-memory `config_data` dict: an ordered
association list of keys to values (Python dicts preserve insertion order). -/
abbrev Doc := List (String × Value)

/-- Dictionary read: first entry with the given key (`d[k]` / `d.get(k)`). -/
def docGet : Doc → String → Option Value
  | [], _ => none
  | (k, v) :: rest, key => if k = key then some v else docGet rest key

/-- Dictionary assignment `d[key] = v`: replace the value in place if the key
exists, otherwise append the new entry (Python dict insertion order). -/
def setKey : Doc → String → Value → Doc
  | [], key, v => [(key, v)]
  | (k, w) :: rest, key, v =>
      if k = key then (k, v) :: rest else (k, w) :: setKey rest key v

/-- Python `d.update(nc)`: assign every entry of `nc` into `d`, in order. -/
def dictUpdate (d : Doc) : Doc → Doc
  | [] => d
  | (k, v) :: rest => dictUpdate (setKey d k v) rest

/-- `DEFAULT_CONFIG` from `settings.py` lines 13-23, in source order. -/
def DEFAULT_CONFIG : Doc :=
  [("speed", .vFloat 1),
   ("population", .vInt 17),
   ("background_effect", .vStr "pure-black"),
   ("scale", .vFloat 1),
   ("randomness", .vFloat (1/2)),
   ("cycle_settings", .vBool false),
   ("bg_cycle_seconds", .vInt 10),
   ("lens_effect", .vStr "none"),
   ("enabled_characters", .vList [])]

/-- State of the config file on disk: absent, present but not valid JSON, or
present with a parsed document. -/
inductive FileState where
  | missing
  | unparsable
  | parsed : Doc → FileState
deriving DecidableEq, Repr

/-- `load_config` (lines 68-77): missing file yields a copy of the defaults;
a parse failure is caught (`except Exception`), logged and also yields the
defaults.  Totality of this function is the embedding of "never raises an
error to the caller". -/
def load_config : FileState → Doc
  | .missing => DEFAULT_CONFIG
  | .unparsable => DEFAULT_CONFIG
  | .parsed d => d

/-- Value held by a Tk variable at save time: either numeric content, or
text on which Python numeric coercion raises `ValueError`. -/
inductive Raw where
  | rnum : ℚ → Raw
  | rbad : String → Raw
deriving DecidableEq, Repr

/-- Error conditions of the save path, matching the three `except`-visible
outcomes of `save_config`: the empty-selection early return, the
`ValueError` handler ("Invalid numeric values entered"), and the generic
handler. -/
inductive ErrKind where
  | emptySelection
  | numericFormat
  | otherError
deriving DecidableEq, Repr

/-- Coercion `float(var.get())`: succeeds exactly on numeric content. -/
def pyFloat : Raw → Except ErrKind ℚ
  | .rnum q => .ok q
  | .rbad _ => .error .numericFormat

/-- Coercion `int(var.get())`: succeeds on numeric content, truncating
toward zero as Python `int()` does. -/
def pyInt : Raw → Except ErrKind ℤ
  | .rnum q => .ok (q.num.tdiv (q.den : ℤ))
  | .rbad _ => .error .numericFormat

/-- Editor session state at the moment Save or Preview is pressed:
the in-memory `config_data`, the asset catalog discovered at startup
(`available_assets`), the checkbox states of the character tab
(`char_vars`, keyed by catalog identifiers in catalog order), and the
values of the eight field variables. -/
structure Session where
  config_data : Doc
  catalog : List String
  checked : String → Bool
  speed_var : Raw
  population_var : Raw
  scale_var : Raw
  rand_var : Raw
  bg_var : String
  cycle_settings_var : Bool
  bg_cycle_sec_var : Raw
  lens_var : String

/-- Line 82: `[char for char, var in self.char_vars.items() if var.get()]`.
`char_vars` is populated by `build_chars_tab` iterating `available_assets`
in order, so its items enumerate the catalog in catalog order and the
comprehension is a filter of the catalog by checkbox state. -/
def chosen_chars (s : Session) : List String :=
  s.catalog.filter s.checked

/-- The `new_config` dict literal of lines 88-98, with coerced values. -/
def ncDoc (sp : ℚ) (pop : ℤ) (sc rd : ℚ) (bg : String) (cyc : Bool)
    (cy : ℤ) (lens : String) (chars : List String) : Doc :=
  [("speed", .vFloat sp),
   ("population", .vInt pop),
   ("scale", .vFloat sc),
   ("randomness", .vFloat rd),
   ("background_effect", .vStr bg),
   ("cycle_settings", .vBool cyc),
   ("bg_cycle_seconds", .vInt cy),
   ("lens_effect", .vStr lens),
   ("enabled_characters", .vList chars)]

/-- The `new_config` dict of lines 88-98 with all numeric coercions applied.
Every coercion failure raises `ValueError` and lands in the same handler, so
the five fallible coercions are sequenced as one match. -/
def new_config (s : Session) : Except ErrKind Doc :=
  match pyFloat s.speed_var, pyInt s.population_var, pyFloat s.scale_var,
        pyFloat s.rand_var, pyInt s.bg_cycle_sec_var with
  | .ok sp, .ok pop, .ok sc, .ok rd, .ok cy =>
      .ok (ncDoc sp pop sc rd s.bg_var s.cycle_settings_var cy s.lens_var
        (chosen_chars s))
  | _, _, _, _, _ => .error .numericFormat

/-- Result of one save operation: the boolean the caller receives, the error
condition reported (if any), the in-memory `config_data` afterwards, and the
file state afterwards. -/
structure Outcome where
  ok : Bool
  err : Option ErrKind
  config_data : Doc
  file : FileState
deriving DecidableEq, Repr

/-- `save_config` (lines 79-113): build the chosen-character list; if it is
empty, report the empty-selection error and return `False` without touching
memory or disk.  Otherwise coerce the field variables into `new_config`
(a `ValueError` reports the numeric-format error and returns `False`,
memory and disk untouched), then `config_data.update(new_config)` and write
the merged document to the file. -/
def save_config (s : Session) (file : FileState) : Outcome :=
  let chosen := chosen_chars s
  if chosen = [] then
    ⟨false, some .emptySelection, s.config_data, file⟩
  else
    match new_config s with
    | .error e => ⟨false, some e, s.config_data, file⟩
    | .ok nc =>
        let d := dictUpdate s.config_data nc
        ⟨true, none, d, .parsed d⟩

/-- Reconciliation step of `ScreensaverSettings.__init__` (lines 38-44):
read `enabled_characters` from the loaded document (a missing key or a
non-list value counts as empty), and if it is empty assign the full catalog
sequence in its place. -/
def init_enabled (doc : Doc) (catalog : List String) : Doc :=
  let saved : List String :=
    match docGet doc "enabled_characters" with
    | some (.vList l) => l
    | _ => []
  if saved = [] then setKey doc "enabled_characters" (.vList catalog) else doc

/-- Behaviour of the external launch steps of `preview_screensaver`
(the two `subprocess.Popen` calls): they either succeed or raise. -/
inductive LaunchBehavior where
  | launchOk
  | launchFail : String → LaunchBehavior
deriving DecidableEq, Repr

/-- Observable outcome of the Preview action: save failed so no launch was
attempted; launch succeeded; or the launch raised and the `except` handler
reported a preview-specific error.  The codomain being this plain sum is the
embedding of "a launch failure never propagates out of the handler". -/
inductive PreviewOutcome where
  | noLaunch
  | launched
  | previewError : String → PreviewOutcome
deriving DecidableEq, Repr

/-- `preview_screensaver` (lines 115-132): `save_config(show_msg=False)`,
and only if it returned `True` attempt the launch steps inside a
`try/except` whose handler reports "Failed to open preview". -/
def preview_screensaver (s : Session) (file : FileState) (lb : LaunchBehavior) :
    PreviewOutcome × FileState :=
  let r := save_config s file
  if r.ok then
    match lb with
    | .launchOk => (.launched, r.file)
    | .launchFail m => (.previewError m, r.file)
  else
    (.noLaunch, r.file)

/-- The nine keys `save_config` itself writes into the document. -/
def managedKeys : List String :=
  ["speed", "population", "scale", "randomness", "background_effect",
   "cycle_settings", "bg_cycle_seconds", "lens_effect", "enabled_characters"]

/-- Typed Configuration record over the declared schema. -/
structure Config where
  speed : ℚ
  population : ℤ
  scale : ℚ
  randomness : ℚ
  background_effect : String
  cycle_settings : Bool
  bg_cycle_seconds : ℤ
  lens_effect : String
  enabled_characters : List String
deriving DecidableEq, Repr

/-- Typed readback of a document along the declared schema: every field
present with its declared type.  Used to state losslessness of the
save/load round trip. -/
def parseConfig (d : Doc) : Option Config :=
  match docGet d "speed", docGet d "population", docGet d "scale",
        docGet d "randomness", docGet d "background_effect",
        docGet d "cycle_settings", docGet d "bg_cycle_seconds",
        docGet d "lens_effect", docGet d "enabled_characters" with
  | some (.vFloat sp), some (.vInt pop), some (.vFloat sc), some (.vFloat rd),
    some (.vStr bg), some (.vBool cyc), some (.vInt cys), some (.vStr lens),
    some (.vList chars) =>
      some ⟨sp, pop, sc, rd, bg, cyc, cys, lens, chars⟩
  | _, _, _, _, _, _, _, _, _ => none

/-- Editor session whose control values hold exactly the fields of `c`
over a prior in-memory document: catalog equal to the selection with every
checkbox ticked, so the chosen characters are exactly
`c.enabled_characters`. -/
def sessionFor (c : Config) (prior : Doc) : Session :=
  { config_data := prior
    catalog := c.enabled_characters
    checked := fun _ => true
    speed_var := .rnum c.speed
    population_var := .rnum (c.population : ℚ)
    scale_var := .rnum c.scale
    rand_var := .rnum c.randomness
    bg_var := c.background_effect
    cycle_settings_var := c.cycle_settings
    bg_cycle_sec_var := .rnum (c.bg_cycle_seconds : ℚ)
    lens_var := c.lens_effect }

/-- True when at least one of the five numeric variables holds non-numeric
content, i.e. some coercion of `new_config` raises `ValueError`. -/
def hasNonNumeric (s : Session) : Bool :=
  (match s.speed_var with | .rbad _ => true | _ => false) ||
  (match s.population_var with | .rbad _ => true | _ => false) ||
  (match s.scale_var with | .rbad _ => true | _ => false) ||
  (match s.rand_var with | .rbad _ => true | _ => false) ||
  (match s.bg_cycle_sec_var with | .rbad _ => true | _ => false)

/-- Last occurrence of a key in an association list; describes the net
effect of `dictUpdate` on lookups. -/
def docGetLast : Doc → String → Option Value
  | [], _ => none
  | (k, v) :: rest, key =>
      match docGetLast rest key with
      | some w => some w
      | none => if k = key then some v else none

/-! Concrete scenario data used to instantiate the theorems below. -/

/-- Persisted document of the stale-reference scenario of the spec:
`enabled_characters = ["ghost.svg"]` plus an unrelated extra key. -/
def docStale : Doc :=
  [("speed", Value.vFloat 1),
   ("enabled_characters", Value.vList ["ghost.svg"]),
   ("extra_key", Value.vStr "keepme")]

/-- Session of the stale-reference scenario: catalog `["a.svg"]`, the one
catalog-backed checkbox ticked, every field variable holding a valid value,
in-memory document still carrying the stale `"ghost.svg"`. -/
def sessionStale : Session where
  config_data := docStale
  catalog := ["a.svg"]
  checked := fun a => a == "a.svg"
  speed_var := Raw.rnum 2
  population_var := Raw.rnum 17
  scale_var := Raw.rnum 1
  rand_var := Raw.rnum (1/2)
  bg_var := "stars"
  cycle_settings_var := false
  bg_cycle_sec_var := Raw.rnum 10
  lens_var := "none"

/-- Same session with every character checkbox cleared. -/
def sessionNoSel : Session :=
  { sessionStale with checked := fun _ => false }

/-- Empty selection and a non-numeric speed value at the same time. -/
def sessionEmptyBadSpeed : Session :=
  { sessionNoSel with speed_var := Raw.rbad "abc" }

/-- Empty selection and a non-numeric background-cycle value at the same
time. -/
def sessionEmptyBadCycle : Session :=
  { sessionNoSel with bg_cycle_sec_var := Raw.rbad "xyz" }

/-- Non-empty selection with a non-numeric randomness value. -/
def sessionBadRand : Session :=
  { sessionStale with rand_var := Raw.rbad "oops" }

/-- Sample typed configuration for the round-trip witness. -/
def configSample : Config where
  speed := 3/2
  population := 10
  scale := 2
  randomness := 1/4
  background_effect := "random"
  cycle_settings := true
  bg_cycle_seconds := 12
  lens_effect := "trails"
  enabled_characters := ["a.svg", "b.svg"]

/-- Loaded document with an empty persisted selection. -/
def docEmptySel : Doc :=
  [("enabled_characters", Value.vList []), ("speed", Value.vFloat 3)]

/-! Helper lemmas about dictionary reads after assignment and update. -/

theorem docGet_setKey (d : Doc) (k : String) (v : Value) (key : String) :
    docGet (setKey d k v) key = if k = key then some v else docGet d key := by
  induction d with
  | nil => simp [setKey, docGet]
  | cons p rest ih =>
    obtain ⟨k2, w⟩ := p
    by_cases h : k2 = k
    · subst h
      by_cases h2 : k2 = key <;> simp [setKey, docGet, h2]
    · by_cases h2 : k2 = key
      · have h3 : k ≠ key := h2 ▸ Ne.symm h
        have h4 : ¬key = k := h2 ▸ h
        simp [setKey, docGet, h2, h3, h4]
      · simp [setKey, docGet, h, h2, ih]

theorem docGet_dictUpdate (nc : Doc) (d : Doc) (key : String) :
    docGet (dictUpdate d nc) key =
      match docGetLast nc key with
      | some v => some v
      | none => docGet d key := by
  induction nc generalizing d with
  | nil => rfl
  | cons p rest ih =>
    obtain ⟨k, v⟩ := p
    rw [dictUpdate, ih, docGetLast]
    cases docGetLast rest key with
    | some w => rfl
    | none => by_cases hk : k = key <;> simp [docGet_setKey, hk]

/-- Truncating coercion on an integral rational is the identity, so the
`int(...)` casts of the source are lossless on integer-valued variables. -/
theorem pyInt_intCast (n : ℤ) : pyInt (Raw.rnum (n : ℚ)) = Except.ok n := by
  simp [pyInt, Rat.num_intCast, Rat.den_intCast]

/-- Characterization of a successful run of `save_config`: the selection
was non-empty, every numeric coercion succeeded, the in-memory document was
merged with the `new_config` literal, and exactly that merged document was
written to the file. -/
theorem save_config_ok_spec (s : Session) (file : FileState)
    (h : (save_config s file).ok = true) :
    ∃ sp pop sc rd cy,
      chosen_chars s ≠ [] ∧
      pyFloat s.speed_var = Except.ok sp ∧
      pyInt s.population_var = Except.ok pop ∧
      pyFloat s.scale_var = Except.ok sc ∧
      pyFloat s.rand_var = Except.ok rd ∧
      pyInt s.bg_cycle_sec_var = Except.ok cy ∧
      (save_config s file).config_data =
        dictUpdate s.config_data
          (ncDoc sp pop sc rd s.bg_var s.cycle_settings_var cy s.lens_var
            (chosen_chars s)) ∧
      (save_config s file).file =
        FileState.parsed ((save_config s file).config_data) := by
  by_cases hc : chosen_chars s = []
  · simp [save_config, hc] at h
  · obtain ⟨sp, hsp⟩ : ∃ sp, pyFloat s.speed_var = Except.ok sp := by
      cases hs : s.speed_var with
      | rnum q => exact ⟨q, rfl⟩
      | rbad b => exfalso; simp [save_config, new_config, pyFloat, hc, hs] at h
    obtain ⟨pop, hpop⟩ : ∃ pop, pyInt s.population_var = Except.ok pop := by
      cases hs : s.population_var with
      | rnum q => exact ⟨_, rfl⟩
      | rbad b =>
          exfalso
          simp [save_config, new_config, pyInt, hc, hs, hsp] at h
    obtain ⟨sc, hsc⟩ : ∃ sc, pyFloat s.scale_var = Except.ok sc := by
      cases hs : s.scale_var with
      | rnum q => exact ⟨q, rfl⟩
      | rbad b =>
          exfalso
          simp [save_config, new_config, pyFloat, hc, hs, hsp, hpop] at h
    obtain ⟨rd, hrd⟩ : ∃ rd, pyFloat s.rand_var = Except.ok rd := by
      cases hs : s.rand_var with
      | rnum q => exact ⟨q, rfl⟩
      | rbad b =>
          exfalso
          simp [save_config, new_config, pyFloat, hc, hs, hsp, hpop, hsc] at h
    obtain ⟨cy, hcy⟩ : ∃ cy, pyInt s.bg_cycle_sec_var = Except.ok cy := by
      cases hs : s.bg_cycle_sec_var with
      | rnum q => exact ⟨_, rfl⟩
      | rbad b =>
          exfalso
          simp [save_config, new_config, pyInt, hc, hs, hsp, hpop, hsc, hrd] at h
    have hnc : new_config s =
        Except.ok (ncDoc sp pop sc rd s.bg_var s.cycle_settings_var cy
          s.lens_var (chosen_chars s)) := by
      simp [new_config, hsp, hpop, hsc, hrd, hcy]
    exact ⟨sp, pop, sc, rd, cy, hc, hsp, hpop, hsc, hrd, hcy,
      by simp [save_config, hc, hnc], by simp [save_config, hc, hnc]⟩

/-- Typed readback of the merged document recovers exactly the written
field values, whatever the prior document held in the managed keys. -/
theorem parseConfig_dictUpdate_ncDoc (d : Doc) (sp sc rd : ℚ) (pop cy : ℤ)
    (bg lens : String) (cyc : Bool) (chars : List String) :
    parseConfig (dictUpdate d (ncDoc sp pop sc rd bg cyc cy lens chars)) =
      some ⟨sp, pop, sc, rd, bg, cyc, cy, lens, chars⟩ := by
  simp [parseConfig, docGet_dictUpdate, docGetLast, ncDoc]

/-- A key outside the nine managed ones is untouched by the merge with the
`new_config` literal. -/
theorem docGet_dictUpdate_ncDoc_of_notMem (d : Doc) (sp sc rd : ℚ)
    (pop cy : ℤ) (bg lens : String) (cyc : Bool) (chars : List String)
    (k : String) (hk : k ∉ managedKeys) :
    docGet (dictUpdate d (ncDoc sp pop sc rd bg cyc cy lens chars)) k =
      docGet d k := by
  rw [docGet_dictUpdate]
  have hlast : docGetLast (ncDoc sp pop sc rd bg cyc cy lens chars) k = none := by
    simp [managedKeys] at hk
    obtain ⟨h1, h2, h3, h4, h5, h6, h7, h8, h9⟩ := hk
    simp [docGetLast, ncDoc, Ne.symm h1, Ne.symm h2, Ne.symm h3, Ne.symm h4,
      Ne.symm h5, Ne.symm h6, Ne.symm h7, Ne.symm h8, Ne.symm h9]
  rw [hlast]

/-- C1 counterexample: in the stale-reference scenario (persisted
`enabled_characters = ["ghost.svg"]`, catalog `["a.svg"]`, the catalog
checkbox ticked, the absent ghost control untouched) the save succeeds and
the written document's `enabled_characters` is `["a.svg"]`, which no longer
contains the stale `"ghost.svg"`: the stale reference is silently dropped,
contradicting the claim. -/
theorem C1_counterexample :
    docGet sessionStale.config_data "enabled_characters" =
      some (Value.vList ["ghost.svg"]) ∧
    (save_config sessionStale (FileState.parsed docStale)).ok = true ∧
    (save_config sessionStale (FileState.parsed docStale)).file =
      FileState.parsed
        ((save_config sessionStale (FileState.parsed docStale)).config_data) ∧
    docGet ((save_config sessionStale (FileState.parsed docStale)).config_data)
        "enabled_characters" = some (Value.vList ["a.svg"]) ∧
    ¬ "ghost.svg" ∈ (["a.svg"] : List String) :=
  ⟨rfl, rfl, rfl, rfl, by decide⟩

/-- C1 (amended): on every successful save, the written document's
`enabled_characters` is exactly the list of checked catalog-backed
identifiers, in catalog order; identifiers not in the catalog — in
particular stale references from the persisted document — are dropped from
the saved document, not preserved. -/
theorem C1_saved_selection (s : Session) (fs : FileState) (d : Doc)
    (hok : (save_config s fs).ok = true)
    (hf : (save_config s fs).file = FileState.parsed d) :
    docGet d "enabled_characters" =
      some (Value.vList (s.catalog.filter s.checked)) := by
  obtain ⟨sp, pop, sc, rd, cy, hc, hsp, hpop, hsc, hrd, hcy, hcd, hff⟩ :=
    save_config_ok_spec s fs hok
  rw [hf] at hff
  injection hff with hd
  rw [hd, hcd]
  simp [docGet_dictUpdate, docGetLast, ncDoc, chosen_chars]

/-- Witness for C1 (amended) at the stale-reference scenario. -/
theorem C1_saved_selection_witness :
    docGet ((save_config sessionStale (FileState.parsed docStale)).config_data)
        "enabled_characters" =
      some (Value.vList (sessionStale.catalog.filter sessionStale.checked)) :=
  C1_saved_selection sessionStale (FileState.parsed docStale)
    ((save_config sessionStale (FileState.parsed docStale)).config_data)
    rfl rfl

/-- C2: whenever the computed character selection is empty, `save_config`
reports the empty-selection error, returns `False`, and leaves both the
in-memory document and the file untouched — for every combination of the
other field values. -/
theorem C2_empty_selection_blocks (s : Session) (fs : FileState)
    (h : chosen_chars s = []) :
    save_config s fs =
      ⟨false, some ErrKind.emptySelection, s.config_data, fs⟩ := by
  simp [save_config, h]

/-- Witness for C2 with every checkbox cleared. -/
theorem C2_empty_selection_blocks_witness :
    save_config sessionNoSel (FileState.parsed docStale) =
      ⟨false, some ErrKind.emptySelection, sessionNoSel.config_data,
        FileState.parsed docStale⟩ :=
  C2_empty_selection_blocks sessionNoSel (FileState.parsed docStale) rfl

/-- C3 counterexample: with an empty selection and a non-numeric speed
value at the same time, the reported failure is the empty-selection error,
not the numeric-format error — the empty-selection check runs first,
contradicting the claim that numeric validation is reported first. -/
theorem C3_counterexample :
    chosen_chars sessionEmptyBadSpeed = [] ∧
    hasNonNumeric sessionEmptyBadSpeed = true ∧
    (save_config sessionEmptyBadSpeed (FileState.parsed docStale)).err =
      some ErrKind.emptySelection ∧
    (save_config sessionEmptyBadSpeed (FileState.parsed docStale)).err ≠
      some ErrKind.numericFormat :=
  ⟨rfl, rfl, rfl, by decide⟩

/-- C3 (amended): the empty-selection check is performed before numeric
validation: for an input that has both a non-numeric numeric field and an
empty character selection, the reported failure is the empty-selection
error, not the numeric-format error. -/
theorem C3_selection_checked_first (s : Session) (fs : FileState)
    (h1 : chosen_chars s = []) (_h2 : hasNonNumeric s = true) :
    (save_config s fs).err = some ErrKind.emptySelection ∧
    (save_config s fs).err ≠ some ErrKind.numericFormat := by
  simp [save_config, h1]

/-- Witness for C3 (amended) at the both-faulty session. -/
theorem C3_selection_checked_first_witness :
    (save_config sessionEmptyBadSpeed (FileState.parsed docStale)).err =
      some ErrKind.emptySelection ∧
    (save_config sessionEmptyBadSpeed (FileState.parsed docStale)).err ≠
      some ErrKind.numericFormat :=
  C3_selection_checked_first sessionEmptyBadSpeed (FileState.parsed docStale)
    rfl rfl

/-- C4: loading from a missing path, and loading from a path whose content
fails to parse, both yield the compiled-in default document with
speed 1.0, population 17, scale 1.0, randomness 0.5, background effect
"pure-black", cycle_settings false, bg_cycle_seconds 10, lens effect
"none" and an empty character selection; `load_config` is total, so no
error reaches the caller. -/
theorem C4_load_defaults :
    load_config FileState.missing = DEFAULT_CONFIG ∧
    load_config FileState.unparsable = DEFAULT_CONFIG ∧
    docGet DEFAULT_CONFIG "speed" = some (Value.vFloat 1) ∧
    docGet DEFAULT_CONFIG "population" = some (Value.vInt 17) ∧
    docGet DEFAULT_CONFIG "scale" = some (Value.vFloat 1) ∧
    docGet DEFAULT_CONFIG "randomness" = some (Value.vFloat (1/2)) ∧
    docGet DEFAULT_CONFIG "background_effect" =
      some (Value.vStr "pure-black") ∧
    docGet DEFAULT_CONFIG "cycle_settings" = some (Value.vBool false) ∧
    docGet DEFAULT_CONFIG "bg_cycle_seconds" = some (Value.vInt 10) ∧
    docGet DEFAULT_CONFIG "lens_effect" = some (Value.vStr "none") ∧
    docGet DEFAULT_CONFIG "enabled_characters" = some (Value.vList []) :=
  ⟨rfl, rfl, rfl, rfl, rfl, rfl, rfl, rfl, rfl, rfl, rfl⟩

/-- C5: reconciliation at session start — an empty loaded selection is
replaced by the full catalog sequence in catalog order (so an empty catalog
leaves it empty), and a non-empty loaded selection leaves the document
entirely unchanged. -/
theorem C5_reconcile (doc : Doc) (catalog : List String) (l : List String)
    (h : docGet doc "enabled_characters" = some (Value.vList l)) :
    (l = [] → docGet (init_enabled doc catalog) "enabled_characters" =
      some (Value.vList catalog)) ∧
    (l ≠ [] → init_enabled doc catalog = doc) := by
  constructor
  · intro hl
    subst hl
    simp [init_enabled, h, docGet_setKey]
  · intro hl
    simp [init_enabled, h, hl]

/-- Witness for C5 on an empty loaded selection and a three-element
catalog. -/
theorem C5_reconcile_witness :
    docGet (init_enabled docEmptySel ["a.svg", "b.svg", "c.svg"])
        "enabled_characters" =
      some (Value.vList ["a.svg", "b.svg", "c.svg"]) :=
  (C5_reconcile docEmptySel ["a.svg", "b.svg", "c.svg"] [] rfl).1 rfl

/-- C6: round trip — for every configuration, saving from a session whose
controls hold exactly its field values (over any prior document and any
prior file state) succeeds, and the typed readback of the loaded saved
document reproduces every field exactly. -/
theorem C6_round_trip (c : Config) (prior : Doc) (fs : FileState)
    (hne : c.enabled_characters ≠ []) :
    (save_config (sessionFor c prior) fs).ok = true ∧
    parseConfig (load_config ((save_config (sessionFor c prior) fs).file)) =
      some c := by
  have hchosen : chosen_chars (sessionFor c prior) = c.enabled_characters := by
    simp [chosen_chars, sessionFor]
  have hsp : pyFloat (sessionFor c prior).speed_var = Except.ok c.speed := rfl
  have hpop : pyInt (sessionFor c prior).population_var =
      Except.ok c.population := pyInt_intCast c.population
  have hsc : pyFloat (sessionFor c prior).scale_var = Except.ok c.scale := rfl
  have hrd : pyFloat (sessionFor c prior).rand_var =
      Except.ok c.randomness := rfl
  have hcy : pyInt (sessionFor c prior).bg_cycle_sec_var =
      Except.ok c.bg_cycle_seconds := pyInt_intCast c.bg_cycle_seconds
  have hnc : new_config (sessionFor c prior) =
      Except.ok (ncDoc c.speed c.population c.scale c.randomness
        c.background_effect c.cycle_settings c.bg_cycle_seconds
        c.lens_effect c.enabled_characters) := by
    simp only [new_config, hsp, hpop, hsc, hrd, hcy, hchosen]
    rfl
  have hprior : (sessionFor c prior).config_data = prior := rfl
  have hsave : save_config (sessionFor c prior) fs =
      ⟨true, none,
        dictUpdate prior (ncDoc c.speed c.population c.scale c.randomness
          c.background_effect c.cycle_settings c.bg_cycle_seconds
          c.lens_effect c.enabled_characters),
        FileState.parsed
          (dictUpdate prior (ncDoc c.speed c.population c.scale c.randomness
            c.background_effect c.cycle_settings c.bg_cycle_seconds
            c.lens_effect c.enabled_characters))⟩ := by
    simp [save_config, hchosen, hne, hnc, hprior]
  rw [hsave]
  exact ⟨rfl, by rw [load_config, parseConfig_dictUpdate_ncDoc]⟩

/-- Witness for C6 at a sample configuration over the default document. -/
theorem C6_round_trip_witness :
    (save_config (sessionFor configSample DEFAULT_CONFIG)
      FileState.missing).ok = true ∧
    parseConfig (load_config ((save_config
      (sessionFor configSample DEFAULT_CONFIG) FileState.missing).file)) =
      some configSample :=
  C6_round_trip configSample DEFAULT_CONFIG FileState.missing (by decide)

/-- C7: every key of the in-memory document outside the nine managed
fields keeps its original value in the document written by a successful
save; extra keys are merged, never stripped. -/
theorem C7_extra_keys_preserved (s : Session) (fs : FileState) (k : String)
    (hok : (save_config s fs).ok = true) (hk : k ∉ managedKeys) :
    docGet ((save_config s fs).config_data) k = docGet s.config_data k ∧
    (save_config s fs).file =
      FileState.parsed ((save_config s fs).config_data) := by
  obtain ⟨sp, pop, sc, rd, cy, hc, hsp, hpop, hsc, hrd, hcy, hcd, hff⟩ :=
    save_config_ok_spec s fs hok
  constructor
  · rw [hcd]
    exact docGet_dictUpdate_ncDoc_of_notMem _ _ _ _ _ _ _ _ _ _ k hk
  · exact hff

/-- Witness for C7 on the extra key of the stale-reference scenario. -/
theorem C7_extra_keys_preserved_witness :
    docGet ((save_config sessionStale (FileState.parsed docStale)).config_data)
        "extra_key" = docGet sessionStale.config_data "extra_key" ∧
    (save_config sessionStale (FileState.parsed docStale)).file =
      FileState.parsed
        ((save_config sessionStale (FileState.parsed docStale)).config_data) :=
  C7_extra_keys_preserved sessionStale (FileState.parsed docStale) "extra_key"
    rfl (by decide)

/-- C8 counterexample: with an empty selection and a non-numeric
background-cycle value at the same time, the operation fails with the
empty-selection error, not the numeric-format error, so the claim's
universal "fails with NumericFormatError" does not hold as stated. -/
theorem C8_counterexample :
    hasNonNumeric sessionEmptyBadCycle = true ∧
    (save_config sessionEmptyBadCycle (FileState.parsed docStale)).err =
      some ErrKind.emptySelection ∧
    (save_config sessionEmptyBadCycle (FileState.parsed docStale)).err ≠
      some ErrKind.numericFormat :=
  ⟨rfl, rfl, by decide⟩

/-- C8 (amended): provided the character selection is non-empty (otherwise
the empty-selection error takes precedence), a non-numeric value in any of
speed, population, scale, randomness or bg_cycle_seconds makes
`save_config` fail with the numeric-format error, return `False`, and leave
both the in-memory document and the persisted file unchanged. -/
theorem C8_numeric_rejection (s : Session) (fs : FileState)
    (h1 : chosen_chars s ≠ []) (h2 : hasNonNumeric s = true) :
    save_config s fs =
      ⟨false, some ErrKind.numericFormat, s.config_data, fs⟩ := by
  have hnc : new_config s = Except.error ErrKind.numericFormat := by
    cases hs : s.speed_var <;> cases hp : s.population_var <;>
      cases hsc : s.scale_var <;> cases hr : s.rand_var <;>
      cases hb : s.bg_cycle_sec_var <;>
      simp [hasNonNumeric, hs, hp, hsc, hr, hb] at h2 <;>
      simp [new_config, pyFloat, pyInt, hs, hp, hsc, hr, hb]
  simp [save_config, h1, hnc]

/-- Witness for C8 (amended) at a non-numeric randomness value. -/
theorem C8_numeric_rejection_witness :
    save_config sessionBadRand (FileState.parsed docStale) =
      ⟨false, some ErrKind.numericFormat, sessionBadRand.config_data,
        FileState.parsed docStale⟩ :=
  C8_numeric_rejection sessionBadRand (FileState.parsed docStale)
    (by decide) rfl

/-- C9: preview sequencing — the launch step runs exactly when the silent
save step succeeded (if save fails the outcome is `noLaunch`), and a
failing launch yields the caught preview-specific error value; the codomain
being a plain outcome type embeds that the failure never propagates as a
crash of the editor session. -/
theorem C9_preview_sequencing (s : Session) (fs : FileState) (m : String) :
    (preview_screensaver s fs LaunchBehavior.launchOk).1 =
      (if (save_config s fs).ok then PreviewOutcome.launched
        else PreviewOutcome.noLaunch) ∧
    (preview_screensaver s fs (LaunchBehavior.launchFail m)).1 =
      (if (save_config s fs).ok then PreviewOutcome.previewError m
        else PreviewOutcome.noLaunch) := by
  by_cases h : (save_config s fs).ok = true <;>
    simp [preview_screensaver, h]

/-- C10: implicit invariant — the `enabled_characters` list written by
every successful save is the checked filter of the session's catalog:
non-empty, and a subsequence of the catalog in catalog order. -/
theorem C10_saved_selection_invariant (s : Session) (fs : FileState)
    (d : Doc) (hok : (save_config s fs).ok = true)
    (hf : (save_config s fs).file = FileState.parsed d) :
    docGet d "enabled_characters" =
      some (Value.vList (s.catalog.filter s.checked)) ∧
    s.catalog.filter s.checked ≠ [] ∧
    (s.catalog.filter s.checked).Sublist s.catalog := by
  obtain ⟨sp, pop, sc, rd, cy, hc, hsp, hpop, hsc, hrd, hcy, hcd, hff⟩ :=
    save_config_ok_spec s fs hok
  rw [hf] at hff
  injection hff with hd
  refine ⟨?_, ?_, List.filter_sublist _⟩
  · rw [hd, hcd]
    simp [docGet_dictUpdate, docGetLast, ncDoc, chosen_chars]
  · simpa [chosen_chars] using hc

/-- Witness for C10 at the stale-reference scenario session. -/
theorem C10_saved_selection_invariant_witness :
    docGet ((save_config sessionStale (FileState.parsed docStale)).config_data)
        "enabled_characters" =
      some (Value.vList (sessionStale.catalog.filter sessionStale.checked)) ∧
    sessionStale.catalog.filter sessionStale.checked ≠ [] ∧
    (sessionStale.catalog.filter sessionStale.checked).Sublist
      sessionStale.catalog :=
  C10_saved_selection_invariant sessionStale (FileState.parsed docStale)
    ((save_config sessionStale (FileState.parsed docStale)).config_data)
    rfl rfl

end Danilarious
